import Mathlib

/-!
Verification of the MOOG physics kernel (moog/sprite.py, moog/physics/).

Machine floats are embedded as real numbers (exact arithmetic); where a
behaviour depends on IEEE-754 non-finite values (infinities, NaN), a small
explicit float-value model `Fl` is used instead.  Vectors are pairs of
reals with componentwise operations, matching numpy's 2-vectors.
-/

namespace Moog

/-- 2-vectors, as used for positions, velocities, forces and polygon
vertices throughout the code base. -/
abbrev Vec : Type := ℝ × ℝ

/-- np.dot on 2-vectors. -/
def dot (a b : Vec) : ℝ := a.1 * b.1 + a.2 * b.2

/-- np.cross on 2-vectors (the scalar z-component of the cross product). -/
def cross2 (a b : Vec) : ℝ := a.1 * b.2 - a.2 * b.1

/-- np.linalg.norm on 2-vectors. -/
noncomputable def vnorm (a : Vec) : ℝ := Real.sqrt (a.1 * a.1 + a.2 * a.2)

/-- Componentwise division of a vector by a scalar (numpy broadcasting). -/
noncomputable def vdivs (a : Vec) (c : ℝ) : Vec := (a.1 / c, a.2 / c)

/-- Componentwise (Hadamard) product of two vectors (numpy `*`). -/
def hadamard (a b : Vec) : Vec := (a.1 * b.1, a.2 * b.2)

/-- Left multiplication by the matrix [[0, -1], [1, 0]]: rotation by 90
degrees, as used in tether_physics for the perpendicular direction. -/
def rot90 (a : Vec) : Vec := (-a.2, a.1)

/-- mpl_transforms.Affine2D().scale(sx, sy). -/
def scaleXY (sx sy : ℝ) (v : Vec) : Vec := (sx * v.1, sy * v.2)

/-- mpl_transforms.Affine2D().rotate(theta). -/
noncomputable def rotateVec (theta : ℝ) (v : Vec) : Vec :=
  (Real.cos theta * v.1 - Real.sin theta * v.2,
   Real.sin theta * v.1 + Real.cos theta * v.2)

/-- mpl_transforms.Affine2D().rotate_around(cx, cy, theta). -/
noncomputable def rotateAround (c : Vec) (theta : ℝ) (v : Vec) : Vec :=
  c + rotateVec theta (v - c)

/-- Errors of the kernel, named after the spec's error taxonomy (in the
Python source they are all raised as ValueError). -/
inductive MoogErr where
  | aliasedMutation
  | invalidCollisionGeometry
  | degenerateShape
  | layerLengthMismatch
  | mazeSubstepCount
deriving DecidableEq

/-- The state of a moog.sprite.Sprite that the physics reads and writes:
geometry (centred shape, cached transformed path), kinematics and mass.
`aspect` embeds the source's aspect_ratio attribute;
`x_y_rotational_inertia` is the source's per-axis pair [I_x, I_y]. -/
structure Sprite where
  position : Vec
  angle : ℝ
  scale : ℝ
  aspect : ℝ
  velocity : Vec
  angle_vel : ℝ
  mass : ℝ
  shape_path : List Vec
  path : List Vec
  x_y_rotational_inertia : Vec

/-- Sprite.moment_of_inertia: mass * (I_x + I_y). -/
def Sprite.moment_of_inertia (s : Sprite) : ℝ :=
  s.mass * (s.x_y_rotational_inertia.1 + s.x_y_rotational_inertia.2)

/-- The affine map applied to the stored shape path by Sprite._set_path:
scale by (scale, scale * aspect_ratio), rotate by angle, translate by
position. -/
noncomputable def Sprite.pathTransform (s : Sprite) (v : Vec) : Vec :=
  s.position + rotateVec s.angle (scaleXY s.scale (s.scale * s.aspect) v)

/-- Sprite._set_path: re-derive the cached path from the stored shape path
and rescale the per-axis rotational inertia by the squared scale factors
(the source's `self._x_y_rotational_inertia *= np.square(x_y_scale)`). -/
noncomputable def Sprite.set_path (s : Sprite) : Sprite :=
  { s with
    path := s.shape_path.map s.pathTransform
    x_y_rotational_inertia :=
      (s.x_y_rotational_inertia.1 * (s.scale * s.scale),
       s.x_y_rotational_inertia.2 *
         (s.scale * s.aspect * (s.scale * s.aspect))) }

/-- Body of the position setter (after the aliasing check): translate the
cached path by (pos - position) and store the new position. -/
def Sprite.setPositionBody (s : Sprite) (pos : Vec) : Sprite :=
  { s with
    path := s.path.map (fun v => v + (pos - s.position))
    position := pos }

/-- Sprite.position setter.  `aliased` embeds the identity test
`id(pos) == id(self.position)`; the source raises a ValueError (the spec's
AliasedMutationError) for an aliased in-place mutation. -/
def Sprite.positionSetter (s : Sprite) (pos : Vec) (aliased : Bool) :
    Except MoogErr Sprite :=
  if aliased then .error .aliasedMutation else .ok (s.setPositionBody pos)

/-- Sprite.velocity setter.  The source performs NO aliasing check (it only
converts the value to an array and stores it); the `aliased` argument is
therefore ignored, mirroring the absence of the identity test. -/
def Sprite.velocitySetter (s : Sprite) (vel : Vec) (_aliased : Bool) :
    Except MoogErr Sprite :=
  .ok { s with velocity := vel }

/-- The spec's words for the velocity setter ("fails when a
position/velocity setter is invoked with the same value object currently
stored").  Kept separate from the source translation
`Sprite.velocitySetter` for comparison: the source's velocity setter
checks nothing. -/
def Sprite.velocitySetterSpec (s : Sprite) (vel : Vec) (aliased : Bool) :
    Except MoogErr Sprite :=
  if aliased then .error .aliasedMutation else .ok { s with velocity := vel }

/-- Sprite.angle setter (non-aliased path): rotate the cached path around
the current position by (a - angle) and store the new angle. -/
noncomputable def Sprite.angleSetter (s : Sprite) (a : ℝ) : Sprite :=
  { s with
    path := s.path.map (rotateAround s.position (a - s.angle))
    angle := a }

/-- Sprite.scale setter: store the new scale, then _set_path. -/
noncomputable def Sprite.scaleSetter (s : Sprite) (c : ℝ) : Sprite :=
  Sprite.set_path { s with scale := c }

/-- Sprite.aspect_ratio setter: store the new aspect ratio, then
_set_path. -/
noncomputable def Sprite.aspectSetter (s : Sprite) (r : ℝ) : Sprite :=
  Sprite.set_path { s with aspect := r }

/-- The list of directed edges (v_i, v_[i+1 mod n]) of a vertex loop, as
iterated by the loop in Sprite._set_shape_path. -/
def shapeEdges (vs : List Vec) : List (Vec × Vec) :=
  vs.zip (vs.drop 1 ++ vs.take 1)

/-- Signed area accumulated by Sprite._set_shape_path: the sum of
cross(v0, v1) / 2 over the edges. -/
noncomputable def shapeArea (vs : List Vec) : ℝ :=
  ((shapeEdges vs).map (fun e => cross2 e.1 e.2 / 2)).sum

/-- Per-edge second-moment contribution accumulated by
Sprite._set_shape_path: (1/12) * cross * (v0*v0 + v1*v1 + v0*v1),
componentwise. -/
noncomputable def shapeInertiaTerm (e : Vec × Vec) : Vec :=
  (cross2 e.1 e.2 / 12) •
    (hadamard e.1 e.1 + hadamard e.2 e.2 + hadamard e.1 e.2)

/-- The [I_x, I_y] pair accumulated by Sprite._set_shape_path. -/
noncomputable def shapeInertia (vs : List Vec) : Vec :=
  ((shapeEdges vs).map shapeInertiaTerm).sum

/-- Area-weighted centroid accumulator of Sprite._set_shape_path: the sum
of ((v0 + v1) / 3) * (cross / 2) over the edges (divided by the total
signed area afterwards). -/
noncomputable def shapeCentroidAcc (vs : List Vec) : Vec :=
  ((shapeEdges vs).map
    (fun e => (cross2 e.1 e.2 / 2) • ((1 / 3 : ℝ) • (e.1 + e.2)))).sum

/-- Sprite._set_shape_path: accumulate inertia, area and centroid over the
vertex loop, divide the centroid by the signed area (the source divides
unconditionally - there is no raise on zero area), reverse the loop and
negate inertia and area if the area was negative, store the
centroid-centred closed loop, apply the parallel-axis theorem, call
_set_path, and shift the position by the centroid via the position
setter. -/
noncomputable def Sprite.set_shape_path (s : Sprite) (shape : List Vec) :
    Sprite :=
  let area0 := shapeArea shape
  let inertia0 := shapeInertia shape
  let centroid := vdivs (shapeCentroidAcc shape) area0
  let vs := if area0 < 0 then shape.reverse else shape
  let inertia1 := if area0 < 0 then -inertia0 else inertia0
  let area1 := if area0 < 0 then -area0 else area0
  let closed := vs ++ vs.take 1
  let s1 :=
    { s with
      shape_path := closed.map (fun v => v - centroid)
      x_y_rotational_inertia :=
        vdivs (inertia1 - area1 • hadamard centroid centroid) area1 }
  let s2 := s1.set_path
  s2.setPositionBody (s2.position + centroid)

/-- The spec's words for shape setting ("DegenerateShapeError: fails when a
polygon's vertex loop yields zero signed area").  Kept separate from the
source translation `Sprite.set_shape_path` for comparison: the source
itself raises nothing. -/
noncomputable def Sprite.setShapePathSpec (s : Sprite) (shape : List Vec) :
    Except MoogErr Sprite :=
  if shapeArea shape = 0 then .error .degenerateShape
  else .ok (s.set_shape_path shape)

/-- The attribute setters whose effect on the cached path the spec's
invariant quantifies over. -/
inductive SpriteOp where
  | setPosition (pos : Vec)
  | setAngle (a : ℝ)
  | setScale (c : ℝ)
  | setAspect (r : ℝ)
  | setShape (shape : List Vec)

/-- Apply one setter (the successful, non-aliased path). -/
noncomputable def applyOp (s : Sprite) : SpriteOp → Sprite
  | .setPosition pos => s.setPositionBody pos
  | .setAngle a => s.angleSetter a
  | .setScale c => s.scaleSetter c
  | .setAspect r => s.aspectSetter r
  | .setShape sh => s.set_shape_path sh

/-- Apply a sequence of setters in order. -/
noncomputable def applyOps (s : Sprite) (ops : List SpriteOp) : Sprite :=
  ops.foldl applyOp s

/-- The cache invariant of the spec: the cached transformed path equals the
stored centroid-centred shape vertices under scaling by
(scale, scale * aspect_ratio), rotation by angle and translation by
position. -/
def Sprite.pathInv (s : Sprite) : Prop :=
  s.path = s.shape_path.map s.pathTransform

/-- IEEE-754 float values with exact finite arithmetic: a finite real, the
two infinities, or NaN.  Signed zero is not distinguished (zero is treated
as +0), which is enough for the non-finite propagation the source relies
on (np.isfinite guards, inf * 0 = nan, x / inf = 0, ...). -/
inductive Fl where
  | fin (x : ℝ)
  | inf
  | ninf
  | nan

/-- IEEE addition. -/
noncomputable def Fl.add : Fl → Fl → Fl
  | nan, _ => nan
  | _, nan => nan
  | fin a, fin b => fin (a + b)
  | fin _, inf => inf
  | inf, fin _ => inf
  | inf, inf => inf
  | fin _, ninf => ninf
  | ninf, fin _ => ninf
  | ninf, ninf => ninf
  | inf, ninf => nan
  | ninf, inf => nan

/-- IEEE negation. -/
def Fl.neg : Fl → Fl
  | fin a => fin (-a)
  | inf => ninf
  | ninf => inf
  | nan => nan

/-- IEEE subtraction. -/
noncomputable def Fl.sub (a b : Fl) : Fl := Fl.add a (Fl.neg b)

/-- IEEE multiplication (inf * 0 = nan). -/
noncomputable def Fl.mul : Fl → Fl → Fl
  | nan, _ => nan
  | _, nan => nan
  | fin a, fin b => fin (a * b)
  | inf, fin b => if 0 < b then inf else if b < 0 then ninf else nan
  | fin a, inf => if 0 < a then inf else if a < 0 then ninf else nan
  | ninf, fin b => if 0 < b then ninf else if b < 0 then inf else nan
  | fin a, ninf => if 0 < a then ninf else if a < 0 then inf else nan
  | inf, inf => inf
  | inf, ninf => ninf
  | ninf, inf => ninf
  | ninf, ninf => inf

/-- IEEE division (with +0 as the only zero: x / 0 has the sign of x,
0 / 0 = nan, finite / inf = 0, inf / inf = nan). -/
noncomputable def Fl.div : Fl → Fl → Fl
  | nan, _ => nan
  | _, nan => nan
  | fin a, fin b =>
      if b = 0 then (if a = 0 then nan else if 0 < a then inf else ninf)
      else fin (a / b)
  | fin _, inf => fin 0
  | fin _, ninf => fin 0
  | inf, fin b => if 0 ≤ b then inf else ninf
  | ninf, fin b => if 0 ≤ b then ninf else inf
  | inf, inf => nan
  | inf, ninf => nan
  | ninf, inf => nan
  | ninf, ninf => nan

/-- IEEE square root. -/
noncomputable def Fl.sqrt : Fl → Fl
  | nan => nan
  | inf => inf
  | ninf => nan
  | fin a => if a < 0 then nan else fin (Real.sqrt a)

/-- np.isfinite. -/
def Fl.isFinite : Fl → Bool
  | fin _ => true
  | _ => false

/-- Float 2-vectors. -/
abbrev FVec : Type := Fl × Fl

/-- Componentwise float vector addition. -/
noncomputable def Fv.add (a b : FVec) : FVec :=
  (Fl.add a.1 b.1, Fl.add a.2 b.2)

/-- Componentwise float vector subtraction. -/
noncomputable def Fv.sub (a b : FVec) : FVec :=
  (Fl.sub a.1 b.1, Fl.sub a.2 b.2)

/-- Scalar times float vector (numpy broadcasting). -/
noncomputable def Fv.smul (c : Fl) (a : FVec) : FVec :=
  (Fl.mul c a.1, Fl.mul c a.2)

/-- Float vector divided by a scalar (numpy broadcasting). -/
noncomputable def Fv.divs (a : FVec) (c : Fl) : FVec :=
  (Fl.div a.1 c, Fl.div a.2 c)

/-- np.dot on float 2-vectors. -/
noncomputable def Fv.dot (a b : FVec) : Fl :=
  Fl.add (Fl.mul a.1 b.1) (Fl.mul a.2 b.2)

/-- np.cross on float 2-vectors. -/
noncomputable def Fv.cross (a b : FVec) : Fl :=
  Fl.sub (Fl.mul a.1 b.2) (Fl.mul a.2 b.1)

/-- np.linalg.norm on float 2-vectors. -/
noncomputable def Fv.norm (a : FVec) : Fl :=
  Fl.sqrt (Fl.add (Fl.mul a.1 a.1) (Fl.mul a.2 a.2))

/-- The sprite fields read and written by the float-level embeddings
(abstract_force.py, and collisions.py at non-finite masses). -/
structure FSprite where
  position : FVec
  velocity : FVec
  angle_vel : Fl
  mass : Fl
  x_y_rotational_inertia : FVec

/-- Sprite.moment_of_inertia in the float model. -/
noncomputable def FSprite.moment_of_inertia (s : FSprite) : Fl :=
  Fl.mul s.mass
    (Fl.add s.x_y_rotational_inertia.1 s.x_y_rotational_inertia.2)

/-- AbstractNewtonianForce.step: for each (sprite, force) pair of
zip(sprites, forces), skip the sprite if its mass is not finite, else add
force / (mass * float(updates_per_env_step)) to its velocity. -/
noncomputable def newtonianForceStep (sprites : List FSprite)
    (forces : List FVec) (updates_per_env_step : ℕ) : List FSprite :=
  (sprites.zip forces).map (fun p =>
    if p.1.mass.isFinite then
      { p.1 with
        velocity := Fv.add p.1.velocity
          (Fv.divs p.2 (Fl.mul p.1.mass (Fl.fin updates_per_env_step))) }
    else p.1)

/-- np.isclose(a, b, atol=1e-4) with numpy's default rtol=1e-5:
|a - b| <= atol + rtol * |b|. -/
def isClose (a b : ℝ) : Prop :=
  |a - b| ≤ 1 / 10000 + (1 / 100000) * |b|

noncomputable instance (a b : ℝ) : Decidable (isClose a b) := by
  unfold isClose; exact inferInstance

/-- collisions._collide_without_update_angle_vel: check that the collision
normal has norm close to 1 (else raise the spec's
InvalidCollisionGeometry), project both velocities onto the normal, form
the (mass-weighted if symmetric, else sprite_1's) centre-of-mass normal
velocity, and reflect each normal velocity component across it scaled by
(1 + elasticity).  The collision point is unused by this model, as in the
source. -/
noncomputable def collideWithoutUpdateAngleVel (s0 s1 : Sprite)
    (_collision_point collision_normal : Vec) (elasticity : ℝ)
    (symmetric : Bool) : Except MoogErr (Sprite × Sprite) :=
  if isClose (vnorm collision_normal) 1 then
    let v0 := s0.velocity
    let v1 := s1.velocity
    let m0 := s0.mass
    let m1 := s1.mass
    let v0n := dot v0 collision_normal • collision_normal
    let v1n := dot v1 collision_normal • collision_normal
    let vcm := if symmetric then vdivs (m0 • v0n + m1 • v1n) (m0 + m1)
               else v1n
    let dV0 := (1 + elasticity) • (vcm - v0n)
    let dV1 := (1 + elasticity) • (vcm - v1n)
    .ok ({ s0 with velocity := s0.velocity + dV0 },
         { s1 with velocity := s1.velocity + dV1 })
  else .error .invalidCollisionGeometry

/-- collisions._collide_with_update_angle_vel: the rotational model.  Note
the source performs NO check on the norm of the collision normal and can
raise nothing; this is a total function. -/
noncomputable def collideWithUpdateAngleVel (s0 s1 : Sprite)
    (collision_point collision_normal : Vec) (elasticity : ℝ)
    (symmetric : Bool) : Sprite × Sprite :=
  let m0 := s0.mass
  let m1 := s1.mass
  let w0 := s0.angle_vel
  let w1 := s1.angle_vel
  let i0 := s0.moment_of_inertia
  let i1 := s1.moment_of_inertia
  let v0 := dot s0.velocity collision_normal
  let v1 := dot s1.velocity collision_normal
  let cPoint0 := collision_point - s0.position
  let cPoint1 := collision_point - s1.position
  let r0 := vnorm cPoint0
  let r1 := vnorm cPoint1
  let sinTheta0 := cross2 cPoint0 collision_normal / r0
  let sinTheta1 := cross2 cPoint1 collision_normal / r1
  let sLev0 := r0 * sinTheta0
  let sLev1 := r1 * sinTheta1
  let a := m0 + m1 + m0 * m1 * (sLev0 * sLev0 / i0 + sLev1 * sLev1 / i1)
  let b := (1 + elasticity) * (v0 - v1 + w0 * sLev0 - w1 * sLev1)
  let dV0 := if symmetric then -1 * m1 * b / a else -1 * m1 * b / (a - m0)
  let dV1 := if symmetric then m0 * b / a else 0
  let dW0 := m0 * dV0 * sLev0 / i0
  let dW1 := m1 * dV1 * sLev1 / i1
  ({ s0 with velocity := s0.velocity + dV0 • collision_normal,
             angle_vel := w0 + dW0 },
   { s1 with velocity := s1.velocity + dV1 • collision_normal,
             angle_vel := w1 + dW1 })

/-- The spec's words for the rotational model ("a computed contact normal's
magnitude deviating from 1 beyond tolerance raises
InvalidCollisionGeometry ... in both models").  Kept separate from the
source translation `collideWithUpdateAngleVel` for comparison: the source's
rotational model has no such check. -/
noncomputable def collideWithUpdateAngleVelSpec (s0 s1 : Sprite)
    (collision_point collision_normal : Vec) (elasticity : ℝ)
    (symmetric : Bool) : Except MoogErr (Sprite × Sprite) :=
  if isClose (vnorm collision_normal) 1 then
    .ok (collideWithUpdateAngleVel s0 s1 collision_point collision_normal
      elasticity symmetric)
  else .error .invalidCollisionGeometry

/-- collisions._collide_with_update_angle_vel at float level, for the
behaviour at literally infinite mass (the asymmetric branch's
delta_w_1 = m_1 * 0.0 * s_1 / i_1 is inf * 0 = nan when m_1 is inf). -/
noncomputable def collideWithUpdateAngleVelF (s0 s1 : FSprite)
    (collision_point collision_normal : FVec) (elasticity : Fl)
    (symmetric : Bool) : FSprite × FSprite :=
  let m0 := s0.mass
  let m1 := s1.mass
  let w0 := s0.angle_vel
  let w1 := s1.angle_vel
  let i0 := s0.moment_of_inertia
  let i1 := s1.moment_of_inertia
  let v0 := Fv.dot s0.velocity collision_normal
  let v1 := Fv.dot s1.velocity collision_normal
  let cPoint0 := Fv.sub collision_point s0.position
  let cPoint1 := Fv.sub collision_point s1.position
  let r0 := Fv.norm cPoint0
  let r1 := Fv.norm cPoint1
  let sinTheta0 := Fl.div (Fv.cross cPoint0 collision_normal) r0
  let sinTheta1 := Fl.div (Fv.cross cPoint1 collision_normal) r1
  let sLev0 := Fl.mul r0 sinTheta0
  let sLev1 := Fl.mul r1 sinTheta1
  let a := Fl.add (Fl.add m0 m1) (Fl.mul (Fl.mul m0 m1)
    (Fl.add (Fl.div (Fl.mul sLev0 sLev0) i0)
            (Fl.div (Fl.mul sLev1 sLev1) i1)))
  let b := Fl.mul (Fl.add (Fl.fin 1) elasticity)
    (Fl.sub (Fl.add (Fl.sub v0 v1) (Fl.mul w0 sLev0)) (Fl.mul w1 sLev1))
  let dV0 := if symmetric then Fl.div (Fl.mul (Fl.mul (Fl.fin (-1)) m1) b) a
             else Fl.div (Fl.mul (Fl.mul (Fl.fin (-1)) m1) b) (Fl.sub a m0)
  let dV1 := if symmetric then Fl.div (Fl.mul m0 b) a else Fl.fin 0
  let dW0 := Fl.div (Fl.mul (Fl.mul m0 dV0) sLev0) i0
  let dW1 := Fl.div (Fl.mul (Fl.mul m1 dV1) sLev1) i1
  ({ s0 with velocity := Fv.add s0.velocity (Fv.smul dV0 collision_normal),
             angle_vel := Fl.add w0 dW0 },
   { s1 with velocity := Fv.add s1.velocity (Fv.smul dV1 collision_normal),
             angle_vel := Fl.add w1 dW1 })

/-- The (unnormalised) lever arm used by
tether_physics._change_rotation_coordinates: the sprite position advanced
by half a velocity step, relative to the origin
((position + 0.5 * velocity / updates_per_env_step) - origin). -/
noncomputable def tetherLever (s : Sprite) (origin : Vec)
    (updates_per_env_step : ℝ) : Vec :=
  s.position + (1 / 2 : ℝ) • vdivs s.velocity updates_per_env_step - origin

/-- tether_physics._change_rotation_coordinates: angular momentum, moment
of inertia, radius and perpendicular direction of one sprite relative to a
new origin. -/
noncomputable def changeRotationCoordinates (s : Sprite)
    (origin origin_velocity : Vec) (updates_per_env_step : ℝ) :
    ℝ × ℝ × ℝ × Vec :=
  let parallel0 := tetherLever s origin updates_per_env_step
  let radius := vnorm parallel0
  let parallel := vdivs parallel0 radius
  let perpendicular := rot90 parallel
  let perp_vel := dot (s.velocity - origin_velocity) perpendicular
  let angular_momentum :=
    perp_vel * s.mass * radius + s.angle_vel * s.moment_of_inertia
  let moment := s.moment_of_inertia + s.mass * (radius * radius)
  (angular_momentum, moment, radius, perpendicular)

/-- Total mass of a tether group. -/
def tetherTotalMass (sprites : List Sprite) : ℝ :=
  (sprites.map Sprite.mass).sum

/-- Total linear momentum of a tether group. -/
def tetherTotalMomentum (sprites : List Sprite) : Vec :=
  (sprites.map (fun s => s.mass • s.velocity)).sum

/-- Centre of mass of a tether group. -/
noncomputable def tetherCenterOfMass (sprites : List Sprite) : Vec :=
  vdivs ((sprites.map (fun s => s.mass • s.position)).sum)
    (tetherTotalMass sprites)

/-- The origin used by _tether_sprites: the anchor if given, else the
centre of mass. -/
noncomputable def tetherOrigin (sprites : List Sprite)
    (anchor : Option Vec) : Vec :=
  match anchor with
  | some a => a
  | none => tetherCenterOfMass sprites

/-- The aggregate translational velocity used by _tether_sprites: zero if
anchored, else total momentum / total mass. -/
noncomputable def tetherOriginVelocity (sprites : List Sprite)
    (anchor : Option Vec) : Vec :=
  match anchor with
  | some _ => (0, 0)
  | none => vdivs (tetherTotalMomentum sprites) (tetherTotalMass sprites)

/-- The aggregate angular velocity of _tether_sprites: total angular
momentum over total moment of inertia, both about the tether origin. -/
noncomputable def tetherAngularVelocity (sprites : List Sprite)
    (updates_per_env_step : ℝ) (anchor : Option Vec) : ℝ :=
  let origin := tetherOrigin sprites anchor
  let originVel := tetherOriginVelocity sprites anchor
  let datas := sprites.map
    (fun s => changeRotationCoordinates s origin originVel
      updates_per_env_step)
  (datas.map (fun d => d.1)).sum / (datas.map (fun d => d.2.1)).sum

/-- tether_physics._tether_sprites: no-op on an empty group (the source
also no-ops when the total mass is infinite; masses are embedded as finite
reals here, so that early return is never taken); otherwise assign every
member velocity = aggregate velocity + radius * perpendicular * aggregate
angular velocity and angular velocity = aggregate angular velocity (or, if
update_angle_vel is disabled, the aggregate velocity and zero). -/
noncomputable def tetherSprites (sprites : List Sprite)
    (updates_per_env_step : ℝ) (update_angle_vel : Bool)
    (anchor : Option Vec) : List Sprite :=
  if sprites.isEmpty then sprites
  else
    let origin := tetherOrigin sprites anchor
    let originVel := tetherOriginVelocity sprites anchor
    if update_angle_vel then
      let w := tetherAngularVelocity sprites updates_per_env_step anchor
      sprites.map (fun s =>
        let d := changeRotationCoordinates s origin originVel
          updates_per_env_step
        { s with velocity := originVel + (d.2.2.1 * w) • d.2.2.2,
                 angle_vel := w })
    else
      sprites.map (fun s => { s with velocity := originVel, angle_vel := 0 })

/-- maze_physics.MazePhysics.apply_physics: raise (ValueError in the
source) unless updates_per_env_step equals 1, before touching any sprite;
otherwise update each avatar sprite.  The per-sprite maze update
(_update_sprite_in_maze) is irrelevant to the substep guard and is passed
in as the function `update`. -/
def mazeApplyPhysics (update : Sprite → Sprite)
    (avatar_layers : List (List Sprite)) (updates_per_env_step : ℕ) :
    Except MoogErr (List (List Sprite)) :=
  if updates_per_env_step ≠ 1 then .error .mazeSubstepCount
  else .ok (avatar_layers.map (fun layer => layer.map update))

/-- A concrete sprite satisfying the path-cache invariant (unit scale and
aspect ratio, zero angle, one-vertex shape), used to instantiate
universally quantified theorems. -/
noncomputable def sampleSprite : Sprite :=
  { position := (0, 0), angle := 0, scale := 1, aspect := 1,
    velocity := (0, 0), angle_vel := 0, mass := 1,
    shape_path := [(1, 1)], path := [(1, 1)],
    x_y_rotational_inertia := (1, 1) }

/-- A concrete moving collision partner (mass 1, velocity (1, 0)). -/
noncomputable def collideSample0 : Sprite :=
  { position := (0, 0), angle := 0, scale := 1, aspect := 1,
    velocity := (1, 0), angle_vel := 0, mass := 1,
    shape_path := [], path := [],
    x_y_rotational_inertia := (1 / 2, 1 / 2) }

/-- A concrete resting collision partner (mass 1, velocity (0, 0)). -/
noncomputable def collideSample1 : Sprite :=
  { position := (2, 0), angle := 0, scale := 1, aspect := 1,
    velocity := (0, 0), angle_vel := 0, mass := 1,
    shape_path := [], path := [],
    x_y_rotational_inertia := (1 / 2, 1 / 2) }

/-- A float-level moving collision partner with finite mass 1. -/
noncomputable def fCollideSample0 : FSprite :=
  { position := (Fl.fin 0, Fl.fin 0), velocity := (Fl.fin 1, Fl.fin 0),
    angle_vel := Fl.fin 0, mass := Fl.fin 1,
    x_y_rotational_inertia := (Fl.fin (1 / 2), Fl.fin (1 / 2)) }

/-- A float-level collision partner with literally infinite mass, as an
immovable wall would have with mass=np.inf. -/
noncomputable def fCollideSample1 : FSprite :=
  { position := (Fl.fin 2, Fl.fin 0), velocity := (Fl.fin 0, Fl.fin 0),
    angle_vel := Fl.fin 0, mass := Fl.inf,
    x_y_rotational_inertia := (Fl.fin (1 / 2), Fl.fin (1 / 2)) }

/-- A float-level sprite with finite mass 2, for the Newtonian force
step. -/
noncomputable def forceSampleFinite : FSprite :=
  { position := (Fl.fin 0, Fl.fin 0), velocity := (Fl.fin 1, Fl.fin 0),
    angle_vel := Fl.fin 0, mass := Fl.fin 2,
    x_y_rotational_inertia := (Fl.fin 1, Fl.fin 1) }

/-- A float-level sprite with infinite mass, for the Newtonian force
step. -/
noncomputable def forceSampleInfinite : FSprite :=
  { position := (Fl.fin 0, Fl.fin 0), velocity := (Fl.fin 1, Fl.fin 0),
    angle_vel := Fl.fin 0, mass := Fl.inf,
    x_y_rotational_inertia := (Fl.fin 1, Fl.fin 1) }

/-- A concrete sprite with nonzero velocity, spin and unit moment of
inertia, used for the tether theorems. -/
noncomputable def tetherSample : Sprite :=
  { position := (0, 0), angle := 0, scale := 1, aspect := 1,
    velocity := (2, 0), angle_vel := 1, mass := 1,
    shape_path := [], path := [],
    x_y_rotational_inertia := (1 / 2, 1 / 2) }

/-- A sprite constructed as by Sprite.__init__ with the centred unit
square as custom shape, mass 1, aspect ratio 1 and the given scale:
the shape setter (i.e. _set_shape_path) runs once at construction. -/
noncomputable def mkSquareSprite (c : ℝ) : Sprite :=
  Sprite.set_shape_path
    { position := (0, 0), angle := 0, scale := c, aspect := 1,
      velocity := (0, 0), angle_vel := 0, mass := 1,
      shape_path := [], path := [], x_y_rotational_inertia := (0, 0) }
    [(-1, -1), (1, -1), (1, 1), (-1, 1)]

theorem vnorm_unit_x : vnorm ((1 : ℝ), (0 : ℝ)) = 1 := by
  unfold vnorm
  norm_num

theorem smul_momentum_cancel (m0 m1 d0 d1 : ℝ) (v0 v1 n : Vec)
    (h : m0 * d0 + m1 * d1 = 0) :
    m0 • (v0 + d0 • n) + m1 • (v1 + d1 • n) = m0 • v0 + m1 • v1 := by
  rw [smul_add, smul_add, smul_smul, smul_smul]
  rw [show m0 • v0 + (m0 * d0) • n + (m1 • v1 + (m1 * d1) • n) =
      m0 • v0 + m1 • v1 + ((m0 * d0) • n + (m1 * d1) • n) from by abel]
  rw [← add_smul, h, zero_smul, add_zero]

theorem vnorm_three_x : vnorm ((3 : ℝ), (0 : ℝ)) = 3 := by
  unfold vnorm
  norm_num
  rw [show (9 : ℝ) = 3 ^ 2 by norm_num]
  exact Real.sqrt_sq (by norm_num)

theorem not_isClose_three_one : ¬ isClose (vnorm (3, 0)) 1 := by
  rw [vnorm_three_x]
  unfold isClose
  norm_num

/-- Claim C10: MazePhysics.apply_physics raises whenever
updates_per_env_step is not equal to 1, before touching any sprite, so the
maze corrective physics cannot be composed with an orchestrator running
more than one sub-step per external step. -/
theorem maze_apply_physics_requires_single_substep
    (update : Sprite → Sprite) (avatar_layers : List (List Sprite))
    (updates_per_env_step : ℕ) (h : updates_per_env_step ≠ 1) :
    mazeApplyPhysics update avatar_layers updates_per_env_step =
      .error .mazeSubstepCount := by
  simp [mazeApplyPhysics, h]

/-- Witness for C10, at updates_per_env_step = 2. -/
theorem maze_apply_physics_requires_single_substep_check :
    (2 : ℕ) ≠ 1 ∧
    mazeApplyPhysics id [] 2 = .error .mazeSubstepCount :=
  ⟨by decide,
   maze_apply_physics_requires_single_substep id [] 2 (by decide)⟩

/-- Counterexample to claim C5 as stated: invoking the velocity setter
with the currently stored (aliased) value object does not raise - it
differs from the spec-mandated behaviour, which errors on the aliased
call. -/
theorem velocity_setter_accepts_aliased_value :
    sampleSprite.velocitySetter (1, 2) true ≠
      sampleSprite.velocitySetterSpec (1, 2) true := by
  simp [Sprite.velocitySetter, Sprite.velocitySetterSpec]

/-- Claim C5 (amended): an aliased call of the position setter raises
AliasedMutationError immediately, for every sprite; the velocity setter
performs no aliasing check and stores the value for every call. -/
theorem aliased_setter_behaviour (s : Sprite) (pos vel : Vec) :
    s.positionSetter pos true = .error .aliasedMutation ∧
    s.velocitySetter vel true = .ok { s with velocity := vel } :=
  ⟨rfl, rfl⟩

/-- Counterexample to claim C8 as stated: the rotational collision model
performs no check on the magnitude of the contact normal - at the normal
(3, 0), whose magnitude 3 deviates from 1 beyond tolerance, it returns
normally, differing from the spec-mandated behaviour (an
InvalidCollisionGeometry error). -/
theorem rotational_collision_skips_normal_check :
    Except.ok (collideWithUpdateAngleVel collideSample0 collideSample1
        (0, 0) (3, 0) 1 true) ≠
      collideWithUpdateAngleVelSpec collideSample0 collideSample1
        (0, 0) (3, 0) 1 true := by
  simp [collideWithUpdateAngleVelSpec, not_isClose_three_one]

/-- Claim C8 (amended): the non-rotational collision model raises
InvalidCollisionGeometry whenever the contact normal's magnitude deviates
from 1 beyond the np.isclose tolerance; the rotational model has no such
check. -/
theorem nonrotational_collision_normal_check (s0 s1 : Sprite)
    (collision_point n : Vec) (e : ℝ) (sym : Bool)
    (h : ¬ isClose (vnorm n) 1) :
    collideWithoutUpdateAngleVel s0 s1 collision_point n e sym =
      .error .invalidCollisionGeometry := by
  simp only [collideWithoutUpdateAngleVel, if_neg h]

/-- Witness for C8's amended claim at the normal (3, 0). -/
theorem nonrotational_collision_normal_check_check :
    ¬ isClose (vnorm (3, 0)) 1 ∧
    collideWithoutUpdateAngleVel collideSample0 collideSample1 (0, 0)
        (3, 0) 1 true = .error .invalidCollisionGeometry :=
  ⟨not_isClose_three_one,
   nonrotational_collision_normal_check collideSample0 collideSample1
     (0, 0) (3, 0) 1 true not_isClose_three_one⟩

/-- Counterexample to claim C9 as stated: the collinear loop
[(0,0), (1,1), (2,2)] has zero signed area, yet setting it as a shape
raises nothing - the source's _set_shape_path returns a sprite, differing
from the spec-mandated behaviour (a DegenerateShapeError). -/
theorem degenerate_shape_raises_nothing :
    shapeArea [((0 : ℝ), (0 : ℝ)), (1, 1), (2, 2)] = 0 ∧
    Except.ok (sampleSprite.set_shape_path [(0, 0), (1, 1), (2, 2)]) ≠
      sampleSprite.setShapePathSpec [(0, 0), (1, 1), (2, 2)] := by
  have h : shapeArea [((0 : ℝ), (0 : ℝ)), (1, 1), (2, 2)] = 0 := by
    norm_num [shapeArea, shapeEdges, cross2]
  refine ⟨h, ?_⟩
  simp only [Sprite.setShapePathSpec]
  rw [if_pos h]
  simp

/-- Claim C9 (amended): setting a shape raises no error at all - the
source's _set_shape_path divides by the signed area unconditionally and
returns a sprite; it agrees with the spec's shape setter exactly on
vertex loops of nonzero signed area. -/
theorem set_shape_path_never_degenerate_error (s : Sprite)
    (shape : List Vec) :
    (Except.ok (s.set_shape_path shape) = s.setShapePathSpec shape) ↔
      shapeArea shape ≠ 0 := by
  unfold Sprite.setShapePathSpec
  by_cases h : shapeArea shape = 0
  · simp [h]
  · simp [h]

/-- Claim C6: in a Newtonian force step, the sprite at each index with
finite mass has its velocity incremented by
force / (mass * updates_per_env_step), and the sprite at each index with
non-finite mass is left entirely unchanged. -/
theorem newtonian_force_step_velocity_update (sprites : List FSprite)
    (forces : List FVec) (updates_per_env_step : ℕ) (i : ℕ) (s : FSprite)
    (f : FVec) (hs : sprites[i]? = some s) (hf : forces[i]? = some f) :
    (s.mass.isFinite = true →
      (newtonianForceStep sprites forces updates_per_env_step)[i]? =
        some { s with velocity := (Fv.add s.velocity
          (Fv.divs f (Fl.mul s.mass (Fl.fin updates_per_env_step)))) }) ∧
    (s.mass.isFinite = false →
      (newtonianForceStep sprites forces updates_per_env_step)[i]? =
        some s) := by
  have hz : (sprites.zip forces)[i]? = some (s, f) := by
    rw [List.getElem?_zip_eq_some]
    exact ⟨hs, hf⟩
  unfold newtonianForceStep
  rw [List.getElem?_map, hz]
  constructor
  · intro hfin
    simp [hfin]
  · intro hfin
    simp [hfin]

/-- Witness for C6 with one finite-mass and one infinite-mass sprite. -/
theorem newtonian_force_step_velocity_update_check :
    (newtonianForceStep [forceSampleFinite, forceSampleInfinite]
        [(Fl.fin 4, Fl.fin 0), (Fl.fin 1, Fl.fin 1)] 1)[0]? =
      some { forceSampleFinite with velocity := (Fl.fin 3, Fl.fin 0) } ∧
    (newtonianForceStep [forceSampleFinite, forceSampleInfinite]
        [(Fl.fin 4, Fl.fin 0), (Fl.fin 1, Fl.fin 1)] 1)[1]? =
      some forceSampleInfinite := by
  constructor
  · have h := (newtonian_force_step_velocity_update
      [forceSampleFinite, forceSampleInfinite]
      [(Fl.fin 4, Fl.fin 0), (Fl.fin 1, Fl.fin 1)] 1 0
      forceSampleFinite (Fl.fin 4, Fl.fin 0) rfl rfl).1 rfl
    rw [h]
    norm_num [forceSampleFinite, Fv.add, Fv.divs, Fl.mul, Fl.div, Fl.add]
  · exact (newtonian_force_step_velocity_update
      [forceSampleFinite, forceSampleInfinite]
      [(Fl.fin 4, Fl.fin 0), (Fl.fin 1, Fl.fin 1)] 1 1
      forceSampleInfinite (Fl.fin 1, Fl.fin 1) rfl rfl).2 rfl

/-- Claim C1: in a symmetric collision of two finite-(positive-)mass
sprites with any elasticity in [0, 1], the total linear momentum
mass_0 * velocity_0 + mass_1 * velocity_1 is exactly preserved by the
velocity update, in both the non-rotational and the rotational collision
model. -/
theorem collision_momentum_conserved (s0 s1 : Sprite)
    (collision_point n : Vec) (e : ℝ)
    (hm0 : 0 < s0.mass) (hm1 : 0 < s1.mass) (he0 : 0 ≤ e) (he1 : e ≤ 1)
    (p : Sprite × Sprite)
    (hok : collideWithoutUpdateAngleVel s0 s1 collision_point n e true =
      .ok p) :
    s0.mass • p.1.velocity + s1.mass • p.2.velocity =
      s0.mass • s0.velocity + s1.mass • s1.velocity ∧
    s0.mass •
        (collideWithUpdateAngleVel s0 s1 collision_point n e true).1.velocity
      + s1.mass •
        (collideWithUpdateAngleVel s0 s1 collision_point n e true).2.velocity
      = s0.mass • s0.velocity + s1.mass • s1.velocity := by
  have hsum : s0.mass + s1.mass ≠ 0 := ne_of_gt (add_pos hm0 hm1)
  constructor
  · unfold collideWithoutUpdateAngleVel at hok
    split at hok
    · rw [Except.ok.injEq] at hok
      subst hok
      simp only [if_pos rfl, dot, vdivs]
      rw [Prod.ext_iff]
      constructor
      · simp only [Prod.fst_add, Prod.smul_fst, Prod.fst_sub, smul_eq_mul]
        field_simp
        ring
      · simp only [Prod.snd_add, Prod.smul_snd, Prod.snd_sub, smul_eq_mul]
        field_simp
        ring
    · exact absurd hok (by simp)
  · simp only [collideWithUpdateAngleVel, eq_self_iff_true, if_true]
    apply smul_momentum_cancel
    ring

/-- Witness for C1: a head-on unit-mass collision along the normal (1, 0)
with elasticity 1 transfers the velocity (billiard exchange), and momentum
is conserved in both models. -/
theorem collision_momentum_conserved_check :
    collideWithoutUpdateAngleVel collideSample0 collideSample1 (0, 0)
        (1, 0) 1 true =
      .ok ({ collideSample0 with velocity := (0, 0) },
           { collideSample1 with velocity := (1, 0) }) ∧
    collideSample0.mass • (((0 : ℝ), (0 : ℝ)) : Vec) +
        collideSample1.mass • (((1 : ℝ), (0 : ℝ)) : Vec) =
      collideSample0.mass • collideSample0.velocity +
        collideSample1.mass • collideSample1.velocity ∧
    collideSample0.mass •
        (collideWithUpdateAngleVel collideSample0 collideSample1 (0, 0)
          (1, 0) 1 true).1.velocity +
      collideSample1.mass •
        (collideWithUpdateAngleVel collideSample0 collideSample1 (0, 0)
          (1, 0) 1 true).2.velocity =
      collideSample0.mass • collideSample0.velocity +
        collideSample1.mass • collideSample1.velocity := by
  have hclose : isClose (vnorm ((1 : ℝ), (0 : ℝ))) 1 := by
    rw [vnorm_unit_x]
    unfold isClose
    norm_num
  have hok : collideWithoutUpdateAngleVel collideSample0 collideSample1
      (0, 0) (1, 0) 1 true =
      .ok ({ collideSample0 with velocity := (0, 0) },
           { collideSample1 with velocity := (1, 0) }) := by
    unfold collideWithoutUpdateAngleVel
    rw [if_pos hclose]
    simp only [collideSample0, collideSample1, dot, vdivs]
    norm_num
  have h := collision_momentum_conserved collideSample0 collideSample1
    (0, 0) (1, 0) 1 (by norm_num [collideSample0])
    (by norm_num [collideSample1]) (by norm_num) (by norm_num) _ hok
  exact ⟨hok, by simpa using h.1, h.2⟩

/-- Claim C3 (amended): in every asymmetric collision call
(symmetric = False), the second sprite's velocity and angular velocity are
unchanged in both collision models for (finite) real masses; with a
literally infinite second mass the rotational model's angular-velocity
update inf * 0 * s_1 / i_1 is NaN and the stored angular velocity becomes
NaN (see the float-level counterexample). -/
theorem asymmetric_collision_leaves_sprite1 (s0 s1 : Sprite)
    (collision_point n : Vec) (e : ℝ) (p : Sprite × Sprite)
    (hok : collideWithoutUpdateAngleVel s0 s1 collision_point n e false =
      .ok p) :
    p.2.velocity = s1.velocity ∧ p.2.angle_vel = s1.angle_vel ∧
    (collideWithUpdateAngleVel s0 s1 collision_point n e
      false).2.velocity = s1.velocity ∧
    (collideWithUpdateAngleVel s0 s1 collision_point n e
      false).2.angle_vel = s1.angle_vel := by
  refine ⟨?_, ?_, ?_, ?_⟩
  · unfold collideWithoutUpdateAngleVel at hok
    split at hok
    · rw [Except.ok.injEq] at hok
      subst hok
      simp
    · exact absurd hok (by simp)
  · unfold collideWithoutUpdateAngleVel at hok
    split at hok
    · rw [Except.ok.injEq] at hok
      subst hok
      rfl
    · exact absurd hok (by simp)
  · simp [collideWithUpdateAngleVel]
  · simp [collideWithUpdateAngleVel]

/-- Witness for C3's amended claim: a concrete asymmetric head-on call. -/
theorem asymmetric_collision_leaves_sprite1_check :
    collideWithoutUpdateAngleVel collideSample0 collideSample1 (0, 0)
        (1, 0) 1 false =
      .ok ({ collideSample0 with velocity := (-1, 0) },
           { collideSample1 with velocity := (0, 0) }) ∧
    (collideWithUpdateAngleVel collideSample0 collideSample1 (0, 0)
      (1, 0) 1 false).2.velocity = collideSample1.velocity ∧
    (collideWithUpdateAngleVel collideSample0 collideSample1 (0, 0)
      (1, 0) 1 false).2.angle_vel = collideSample1.angle_vel := by
  have hclose : isClose (vnorm ((1 : ℝ), (0 : ℝ))) 1 := by
    rw [vnorm_unit_x]
    unfold isClose
    norm_num
  have hok : collideWithoutUpdateAngleVel collideSample0 collideSample1
      (0, 0) (1, 0) 1 false =
      .ok ({ collideSample0 with velocity := (-1, 0) },
           { collideSample1 with velocity := (0, 0) }) := by
    unfold collideWithoutUpdateAngleVel
    rw [if_pos hclose]
    simp only [collideSample0, collideSample1, dot, vdivs]
    norm_num
  have h := asymmetric_collision_leaves_sprite1 collideSample0
    collideSample1 (0, 0) (1, 0) 1 _ hok
  exact ⟨hok, h.2.2.1, h.2.2.2⟩

/-- Counterexample to claim C3 as stated: at a literally infinite second
mass, the rotational model leaves the second sprite's velocity unchanged
but sets its angular velocity to NaN (the float product inf * 0), so the
angular velocity is NOT unchanged. -/
theorem infinite_mass_rotational_angle_vel_nan :
    ((collideWithUpdateAngleVelF fCollideSample0 fCollideSample1
        (Fl.fin 1, Fl.fin 0) (Fl.fin 1, Fl.fin 0) (Fl.fin 1)
        false).2.angle_vel = Fl.nan) ∧
    ((collideWithUpdateAngleVelF fCollideSample0 fCollideSample1
        (Fl.fin 1, Fl.fin 0) (Fl.fin 1, Fl.fin 0) (Fl.fin 1)
        false).2.velocity = fCollideSample1.velocity) ∧
    Fl.nan ≠ fCollideSample1.angle_vel := by
  refine ⟨?_, ?_, by simp [fCollideSample1]⟩
  · simp only [collideWithUpdateAngleVelF, fCollideSample0, fCollideSample1,
      FSprite.moment_of_inertia, Fv.dot, Fv.sub, Fv.cross, Fv.norm, Fv.add,
      Fv.smul]
    norm_num [Fl.add, Fl.mul, Fl.div, Fl.sub, Fl.neg, Fl.sqrt]
  · simp only [collideWithUpdateAngleVelF, fCollideSample0, fCollideSample1,
      FSprite.moment_of_inertia, Fv.dot, Fv.sub, Fv.cross, Fv.norm, Fv.add,
      Fv.smul]
    norm_num [Fl.add, Fl.mul, Fl.div, Fl.sub, Fl.neg, Fl.sqrt]

theorem rotateVec_rotateVec (a b : ℝ) (v : Vec) :
    rotateVec a (rotateVec b v) = rotateVec (a + b) v := by
  simp only [rotateVec, Real.cos_add, Real.sin_add, Prod.mk.injEq]
  constructor <;> ring

theorem pathInv_set_path (s : Sprite) : s.set_path.pathInv := rfl

theorem pathInv_setPositionBody (s : Sprite) (pos : Vec)
    (h : s.pathInv) : (s.setPositionBody pos).pathInv := by
  unfold Sprite.pathInv at h
  show s.path.map (fun v => v + (pos - s.position)) =
    s.shape_path.map (Sprite.pathTransform (s.setPositionBody pos))
  rw [h, List.map_map]
  refine congrArg (fun f => List.map f s.shape_path) ?_
  funext v
  show s.pathTransform v + (pos - s.position) =
    pos + rotateVec s.angle (scaleXY s.scale (s.scale * s.aspect) v)
  simp only [Sprite.pathTransform]
  abel

theorem pathInv_angleSetter (s : Sprite) (a : ℝ) (h : s.pathInv) :
    (s.angleSetter a).pathInv := by
  unfold Sprite.pathInv at h
  show s.path.map (rotateAround s.position (a - s.angle)) =
    s.shape_path.map (Sprite.pathTransform (s.angleSetter a))
  rw [h, List.map_map]
  refine congrArg (fun f => List.map f s.shape_path) ?_
  funext v
  show rotateAround s.position (a - s.angle) (s.pathTransform v) =
    s.position + rotateVec a (scaleXY s.scale (s.scale * s.aspect) v)
  simp only [Sprite.pathTransform, rotateAround]
  rw [add_sub_cancel_left, rotateVec_rotateVec, sub_add_cancel]

theorem pathInv_set_shape_path (s : Sprite) (shape : List Vec) :
    (s.set_shape_path shape).pathInv :=
  pathInv_setPositionBody _ _ (pathInv_set_path _)

/-- Claim C2: after every sequence of attribute setter calls (position,
angle, scale, aspect ratio, shape) starting from a sprite whose cached
path satisfies the cache invariant, the cached transformed path still
equals the stored centroid-centred shape vertices scaled by
(scale, scale * aspect_ratio), rotated by angle and translated by
position. -/
theorem path_cache_invariant (ops : List SpriteOp) (s : Sprite)
    (h : s.pathInv) : (applyOps s ops).pathInv := by
  induction ops generalizing s with
  | nil => exact h
  | cons op rest ih =>
    have hstep : (applyOp s op).pathInv := by
      cases op with
      | setPosition pos => exact pathInv_setPositionBody s pos h
      | setAngle a => exact pathInv_angleSetter s a h
      | setScale c => exact pathInv_set_path _
      | setAspect r => exact pathInv_set_path _
      | setShape sh => exact pathInv_set_shape_path s sh
    exact ih _ hstep

/-- Witness for C2: a concrete sprite satisfying the invariant, and the
invariant after a concrete setter sequence. -/
theorem path_cache_invariant_check :
    sampleSprite.pathInv ∧
    (applyOps sampleSprite
      [SpriteOp.setPosition (1, 2), SpriteOp.setAngle 1]).pathInv := by
  have h : sampleSprite.pathInv := by
    unfold Sprite.pathInv sampleSprite Sprite.pathTransform
    norm_num [rotateVec, scaleXY]
  exact ⟨h, path_cache_invariant _ _ h⟩

/-- Claim C4 (code evaluation): _set_path rescales the stored per-axis
inertia multiplicatively on every call, compounding previously applied
factors.  For the centred unit square (mass 1): construction at scale 2
gives moment of inertia 8/3; then setting scale = 4 (doubling) gives
128/3, a factor 16 - while constructing the same geometry directly at
scale 4 gives 32/3, the factor 4 the claim states; even re-setting
aspect_ratio to its current value 1 at scale 2 quadruples the moment. -/
theorem inertia_rescaling_compounds :
    (mkSquareSprite 2).moment_of_inertia = 8 / 3 ∧
    ((mkSquareSprite 2).scaleSetter 4).moment_of_inertia = 128 / 3 ∧
    (mkSquareSprite 4).moment_of_inertia = 32 / 3 ∧
    ((mkSquareSprite 2).aspectSetter 1).moment_of_inertia = 32 / 3 := by
  refine ⟨?_, ?_, ?_, ?_⟩ <;>
    norm_num [mkSquareSprite, Sprite.set_shape_path, Sprite.set_path,
      Sprite.setPositionBody, Sprite.scaleSetter, Sprite.aspectSetter,
      Sprite.moment_of_inertia, shapeArea, shapeInertia, shapeCentroidAcc,
      shapeInertiaTerm, shapeEdges, cross2, hadamard, vdivs]

theorem vdivs_eq_inv_smul (x : Vec) (c : ℝ) : vdivs x c = c⁻¹ • x := by
  unfold vdivs
  rw [Prod.ext_iff]
  constructor <;> simp [div_eq_inv_mul]

theorem rot90_add_vec (a b : Vec) : rot90 (a + b) = rot90 a + rot90 b := by
  simp [rot90, Prod.ext_iff]
  ring

theorem rot90_smul (c : ℝ) (a : Vec) : rot90 (c • a) = c • rot90 a := by
  simp [rot90, Prod.ext_iff]

theorem rot90_zero : rot90 (0 : Vec) = 0 := by
  simp [rot90, Prod.ext_iff]

theorem list_sum_map_add {α : Type} (l : List α) (f g : α → Vec) :
    (l.map (fun x => f x + g x)).sum = (l.map f).sum + (l.map g).sum := by
  induction l with
  | nil => simp
  | cons x xs ih =>
    simp only [List.map_cons, List.sum_cons, ih]
    abel

theorem list_sum_map_sub {α : Type} (l : List α) (f g : α → Vec) :
    (l.map (fun x => f x - g x)).sum = (l.map f).sum - (l.map g).sum := by
  induction l with
  | nil => simp
  | cons x xs ih =>
    simp only [List.map_cons, List.sum_cons, ih]
    abel

theorem list_sum_map_smul_const {α : Type} (l : List α) (f : α → ℝ)
    (v : Vec) : (l.map (fun x => f x • v)).sum = (l.map f).sum • v := by
  induction l with
  | nil => simp
  | cons x xs ih => simp [ih, add_smul]

theorem list_sum_map_smul_left {α : Type} (c : ℝ) (l : List α)
    (f : α → Vec) : (l.map (fun x => c • f x)).sum = c • (l.map f).sum := by
  induction l with
  | nil => simp
  | cons x xs ih => simp [ih, smul_add]

theorem list_sum_map_rot90 {α : Type} (l : List α) (f : α → Vec) :
    (l.map (fun x => rot90 (f x))).sum = rot90 ((l.map f).sum) := by
  induction l with
  | nil => simp [rot90_zero]
  | cons x xs ih => simp [ih, rot90_add_vec]

theorem tether_momentum_core (l : List Sprite) (com V : Vec) (w ups : ℝ)
    (hcom : tetherTotalMass l • com =
      (l.map (fun s => s.mass • s.position)).sum)
    (hV : tetherTotalMass l • V = tetherTotalMomentum l)
    (hr : ∀ s ∈ l, vnorm (tetherLever s com ups) ≠ 0) :
    (l.map (fun s => s.mass •
      (V + ((changeRotationCoordinates s com V ups).2.2.1 * w) •
        (changeRotationCoordinates s com V ups).2.2.2))).sum =
      tetherTotalMomentum l +
        (w * (2 * ups)⁻¹) • rot90 (tetherTotalMomentum l) := by
  have step1 : ∀ s ∈ l,
      s.mass • (V + ((changeRotationCoordinates s com V ups).2.2.1 * w) •
        (changeRotationCoordinates s com V ups).2.2.2) =
      s.mass • V + w • rot90 (s.mass • tetherLever s com ups) := by
    intro s hs
    have hr' := hr s hs
    show s.mass • (V + (vnorm (tetherLever s com ups) * w) •
      rot90 (vdivs (tetherLever s com ups)
        (vnorm (tetherLever s com ups)))) = _
    rw [vdivs_eq_inv_smul, rot90_smul, smul_smul, smul_add]
    congr 1
    rw [mul_comm (vnorm (tetherLever s com ups)) w, mul_assoc,
      mul_inv_cancel₀ hr', mul_one]
    rw [rot90_smul, smul_smul, smul_smul, mul_comm]
  rw [List.map_congr_left step1, list_sum_map_add]
  have h1 : (l.map (fun s => s.mass • V)).sum = tetherTotalMomentum l := by
    rw [list_sum_map_smul_const]
    exact hV
  rw [h1]
  congr 1
  rw [list_sum_map_smul_left, list_sum_map_rot90]
  have h2 : (l.map (fun s => s.mass • tetherLever s com ups)).sum =
      (2 * ups)⁻¹ • tetherTotalMomentum l := by
    have hlev : ∀ s ∈ l, s.mass • tetherLever s com ups =
        (s.mass • s.position + (2 * ups)⁻¹ • (s.mass • s.velocity)) -
          s.mass • com := by
      intro s _
      unfold tetherLever
      rw [vdivs_eq_inv_smul, smul_sub, smul_add]
      congr 2
      rw [smul_smul, smul_smul, smul_smul]
      congr 1
      rw [mul_inv]
      ring
    rw [List.map_congr_left hlev, list_sum_map_sub, list_sum_map_add,
      list_sum_map_smul_left]
    have hc : (l.map (fun s => s.mass • com)).sum =
        (l.map (fun s => s.mass • s.position)).sum := by
      rw [list_sum_map_smul_const]
      exact hcom
    rw [hc]
    simp only [tetherTotalMomentum]
    abel
  rw [h2, rot90_smul, smul_smul]

/-- Claim C7 (amended): after applying a tether with no anchor in
rotational mode, every tethered sprite has the identical (aggregate)
angular velocity; the total linear momentum is NOT conserved in general:
the lever arms are measured from positions advanced by half a velocity
step, so the new total momentum is
P + w / (2 * updates_per_env_step) * rot90(P); it is conserved exactly
when the aggregate angular velocity w is zero or P = 0. -/
theorem tether_shared_angle_vel_and_momentum (sprites : List Sprite)
    (ups : ℝ) (hM : tetherTotalMass sprites ≠ 0)
    (hr : ∀ s ∈ sprites,
      vnorm (tetherLever s (tetherCenterOfMass sprites) ups) ≠ 0) :
    (∀ t ∈ tetherSprites sprites ups true none,
      t.angle_vel = tetherAngularVelocity sprites ups none) ∧
    tetherTotalMomentum (tetherSprites sprites ups true none) =
      tetherTotalMomentum sprites +
        (tetherAngularVelocity sprites ups none * (2 * ups)⁻¹) •
          rot90 (tetherTotalMomentum sprites) := by
  have hne : sprites.isEmpty = false := by
    cases sprites with
    | nil => simp [tetherTotalMass] at hM
    | cons a t => rfl
  have hts : tetherSprites sprites ups true none =
      sprites.map (fun s =>
        { s with
          velocity := tetherOriginVelocity sprites none +
            ((changeRotationCoordinates s (tetherCenterOfMass sprites)
              (tetherOriginVelocity sprites none) ups).2.2.1 *
              tetherAngularVelocity sprites ups none) •
            (changeRotationCoordinates s (tetherCenterOfMass sprites)
              (tetherOriginVelocity sprites none) ups).2.2.2,
          angle_vel := tetherAngularVelocity sprites ups none }) := by
    simp only [tetherSprites, hne, Bool.false_eq_true, if_false,
      eq_self_iff_true, if_true]
    rfl
  constructor
  · intro t ht
    rw [hts, List.mem_map] at ht
    obtain ⟨s, _, rfl⟩ := ht
    rfl
  · rw [hts]
    have hcom : tetherTotalMass sprites • tetherCenterOfMass sprites =
        (sprites.map (fun s => s.mass • s.position)).sum := by
      unfold tetherCenterOfMass
      rw [vdivs_eq_inv_smul, smul_smul, mul_inv_cancel₀ hM, one_smul]
    have hVeq : tetherTotalMass sprites •
        tetherOriginVelocity sprites none = tetherTotalMomentum sprites := by
      show tetherTotalMass sprites •
        vdivs (tetherTotalMomentum sprites) (tetherTotalMass sprites) = _
      rw [vdivs_eq_inv_smul, smul_smul, mul_inv_cancel₀ hM, one_smul]
    have hcore := tether_momentum_core sprites (tetherCenterOfMass sprites)
      (tetherOriginVelocity sprites none)
      (tetherAngularVelocity sprites ups none) ups hcom hVeq hr
    unfold tetherTotalMomentum
    rw [List.map_map]
    exact hcore

/-- Witness for C7's amended claim: one sprite with velocity (2, 0), spin
1 and moment of inertia 1, tethered alone with no anchor. -/
theorem tether_shared_angle_vel_and_momentum_check :
    tetherTotalMass [tetherSample] ≠ 0 ∧
    (∀ t ∈ tetherSprites [tetherSample] 1 true none,
      t.angle_vel = tetherAngularVelocity [tetherSample] 1 none) ∧
    tetherTotalMomentum (tetherSprites [tetherSample] 1 true none) =
      tetherTotalMomentum [tetherSample] +
        (tetherAngularVelocity [tetherSample] 1 none * (2 * 1)⁻¹) •
          rot90 (tetherTotalMomentum [tetherSample]) := by
  have hM : tetherTotalMass [tetherSample] ≠ 0 := by
    norm_num [tetherTotalMass, tetherSample]
  have hr : ∀ s ∈ [tetherSample],
      vnorm (tetherLever s (tetherCenterOfMass [tetherSample]) 1) ≠ 0 := by
    intro s hs
    rw [List.mem_singleton] at hs
    subst hs
    norm_num [tetherLever, tetherCenterOfMass, tetherTotalMass,
      tetherSample, vdivs, vnorm]
  have h := tether_shared_angle_vel_and_momentum [tetherSample] 1 hM hr
  exact ⟨hM, h.1, h.2⟩

/-- Counterexample to claim C7 as stated: for the single tethered sprite
with momentum (2, 0) and spin 1, the tether changes the total momentum to
(2, 1/2) - a change of half the aggregate angular velocity times the
rotated momentum, far beyond numerical tolerance. -/
theorem tether_momentum_not_conserved :
    tetherTotalMomentum (tetherSprites [tetherSample] 1 true none) =
      (2, 1 / 2) ∧
    tetherTotalMomentum [tetherSample] = (2, 0) ∧
    (((2 : ℝ), (1 / 2 : ℝ)) : Vec) ≠ ((2 : ℝ), (0 : ℝ)) := by
  refine ⟨?_, by norm_num [tetherTotalMomentum, tetherSample],
    by norm_num [Prod.ext_iff]⟩
  norm_num [tetherSprites, tetherTotalMomentum, tetherTotalMass,
    tetherCenterOfMass, tetherOrigin, tetherOriginVelocity,
    tetherAngularVelocity, changeRotationCoordinates, tetherLever,
    Sprite.moment_of_inertia, tetherSample, vdivs, dot, rot90, vnorm,
    Prod.ext_iff]

end Moog
